import Mathlib

/-!
Verification of the biteAPI lambda router against its specification.

The repository holds two variants of the same program: src/main.go (the
newer variant, modelled in namespace MainGo) and src/biteApi.go (the older
variant, modelled in namespace BiteApiGo). Shared pure helpers that are
byte-identical in both files (parsePriceLevel, parsePriceLevels, the data
types) are modelled once at top level.

Modelling conventions:
- Go int becomes Int, Go uint becomes Nat, Go string becomes String.
- Go float64 latitude and longitude carry through the program without any
  arithmetic, so they are modelled as Rat value carriers; the Go zero value
  0.0 becomes 0.
- The upstream googlemaps SDK client is an external collaborator; it is
  modelled as an oracle (structure Upstream) mapping each request to either
  a result or an error. Every outbound call the program makes is recorded
  in an UpstreamCall list so that claims of the form "without issuing any
  upstream call" are statable.
- maps.PriceLevel is a string type whose zero value is the empty string,
  meaning "bound not set"; it is modelled as Option PriceLevel with none
  for the unset zero value.
- maps.PlacesSearchResponse is passed through opaquely (the program only
  serializes it), so it is abstracted to its JSON serialization.
- encoding/json Unmarshal is an external collaborator: its outcome is an
  Option BiteBody input (none for a body that is not valid JSON); the Go
  contract that a failed top-level Unmarshal leaves the struct at its zero
  value is modelled by Option.getD zeroBiteBody at the use site, matching
  handleRequest, which discards the Unmarshal error.
- A return value of none from a handler models an invocation that produces
  no HTTP response record at all: in main.go the nil-stream panic after a
  failed photo fetch, in biteApi.go the log.Fatalf process termination
  inside check.
-/

/-- Price tiers of the upstream maps SDK (PriceLevelFree .. PriceLevelVeryExpensive),
the codomain of parsePriceLevel in both src/main.go and src/biteApi.go. -/
inductive PriceLevel where
  | free
  | inexpensive
  | moderate
  | expensive
  | veryExpensive
deriving DecidableEq

/-- Models parsePriceLevel (src/main.go lines 189-204, src/biteApi.go lines
183-198): a switch on the integer price with free as the default case. -/
def parsePriceLevel (priceLevel : Int) : PriceLevel :=
  if priceLevel = 0 then .free
  else if priceLevel = 1 then .inexpensive
  else if priceLevel = 2 then .moderate
  else if priceLevel = 3 then .expensive
  else if priceLevel = 4 then .veryExpensive
  else .free

/-- Models maps.NearbySearchRequest as used by the program. PlaceType is the
Go field named Type (a Lean keyword). MinPrice and MaxPrice are Option
PriceLevel: none models the Go zero value, the empty string, meaning the
bound is not set. -/
structure NearbySearchRequest where
  Radius : Nat
  PlaceType : String
  OpenNow : Bool
  Location : Option (Rat × Rat)
  MinPrice : Option PriceLevel
  MaxPrice : Option PriceLevel
  PageToken : String
deriving DecidableEq

/-- The Go zero value of maps.NearbySearchRequest, as built by respondNextPage
with only PageToken populated. -/
def emptyNearbySearchRequest : NearbySearchRequest :=
  { Radius := 0, PlaceType := "", OpenNow := false, Location := none,
    MinPrice := none, MaxPrice := none, PageToken := "" }

/-- Models parseLocation (src/main.go lines 181-187): the Go code formats lat
and long with Sprintf percent-f comma percent-f, which is never the empty
string, and reparses the pair with maps.ParseLatLng, which always succeeds on
that output; the format and reparse round trip is collapsed to storing the
pair directly. -/
def parseLocation (lat long : Rat) (r : NearbySearchRequest) : NearbySearchRequest :=
  { r with Location := some (lat, long) }

/-- Models parsePriceLevels (src/main.go lines 206-213, src/biteApi.go lines
200-207): sets MinPrice from minPrice when minPrice is greater than 0, and
sets MaxPrice from minPrice (the source really passes minPrice there) when
maxPrice is less than 5. -/
def parsePriceLevels (minPrice maxPrice : Int) (r : NearbySearchRequest) : NearbySearchRequest :=
  let r1 := if minPrice > 0 then { r with MinPrice := some (parsePriceLevel minPrice) } else r
  if maxPrice < 5 then { r1 with MaxPrice := some (parsePriceLevel minPrice) } else r1

/-- The search criteria built by respondBiteArray (src/main.go lines 140-146):
the literal with Radius, the restaurant place type and OpenNow true, then
parseLocation, then parsePriceLevels. -/
def searchCriteria (lat long : Rat) (radius : Nat) (minPrice maxPrice : Int) : NearbySearchRequest :=
  parsePriceLevels minPrice maxPrice
    (parseLocation lat long
      { Radius := radius, PlaceType := "restaurant", OpenNow := true,
        Location := none, MinPrice := none, MaxPrice := none, PageToken := "" })

/-- Models maps.PlacePhotoRequest as built by respondPhoto (src/main.go lines
171-175). -/
structure PlacePhotoRequest where
  PhotoReference : String
  MaxHeight : Nat
  MaxWidth : Nat
deriving DecidableEq

/-- Models maps.PlacesSearchResponse opaquely: the program never inspects it,
only serializes it with json.Marshal, so it is abstracted to its JSON
serialization. -/
structure PlacesSearchResponse where
  payload : String
deriving DecidableEq

/-- The Go zero value of maps.PlacesSearchResponse, what the SDK call returns
alongside a non-nil error. -/
def zeroPlacesSearchResponse : PlacesSearchResponse := { payload := "" }

/-- Models json.Marshal on the abstracted search response. -/
def jsonMarshal (r : PlacesSearchResponse) : String := r.payload

/-- Models the BiteBody request envelope (src/main.go lines 18-27,
src/biteApi.go lines 19-28). -/
structure BiteBody where
  Verb : String
  Long : Rat
  Lat : Rat
  Radius : Nat
  MinPrice : Int
  MaxPrice : Int
  PageToken : String
  PhotoRef : String
deriving DecidableEq

/-- The Go zero value of BiteBody, what json.Unmarshal leaves behind for a
body that is not valid JSON or that omits fields. -/
def zeroBiteBody : BiteBody :=
  { Verb := "", Long := 0, Lat := 0, Radius := 0, MinPrice := 0, MaxPrice := 0,
    PageToken := "", PhotoRef := "" }

/-- One outbound call to the upstream places provider, recorded so that
claims about which upstream calls an invocation issues are statable. -/
inductive UpstreamCall where
  | nearby (r : NearbySearchRequest)
  | photoFetch (r : PlacePhotoRequest)
deriving DecidableEq

/-- Oracle for the external googlemaps SDK client: each request maps to
either a result or an error string. The photo fetch result is the byte
stream of the image, each byte below 256. Client construction
(maps.NewClient) is assumed to succeed; its failure modes are part of the
same upstream-error class covered by the error branches here. -/
structure Upstream where
  nearbySearch : NearbySearchRequest → Except String PlacesSearchResponse
  placePhoto : PlacePhotoRequest → Except String (List Nat)

/-- Models net.http.StatusText for the status codes the program uses. -/
def statusText (code : Nat) : String :=
  if code = 200 then "OK"
  else if code = 400 then "Bad Request"
  else if code = 405 then "Method Not Allowed"
  else if code = 500 then "Internal Server Error"
  else ""

/-- The header map every response constructor in src/main.go attaches. -/
def stdHeaders : List (String × String) :=
  [("Content-Type", "application/json"), ("Access-Control-Allow-Origin", "*")]

/-- Models events.APIGatewayProxyResponse restricted to the fields the
program sets; Headers is an association list standing for the Go string map. -/
structure APIGatewayProxyResponse where
  StatusCode : Nat
  Headers : List (String × String)
  IsBase64Encoded : Bool
  Body : String
deriving DecidableEq

/-- The character of the standard base64 alphabet at index n, for n below 64:
capital letters, small letters, digits, plus, slash. Models the alphabet of
encoding/base64 StdEncoding. -/
def b64Char (n : Nat) : Char :=
  if n < 26 then Char.ofNat (65 + n)
  else if n < 52 then Char.ofNat (97 + (n - 26))
  else if n < 62 then Char.ofNat (48 + (n - 52))
  else if n = 62 then '+'
  else '/'

/-- The index of a character in the standard base64 alphabet, the inverse of
b64Char on indices below 64. -/
def b64Index (c : Char) : Nat :=
  if 65 ≤ c.toNat ∧ c.toNat ≤ 90 then c.toNat - 65
  else if 97 ≤ c.toNat ∧ c.toNat ≤ 122 then c.toNat - 97 + 26
  else if 48 ≤ c.toNat ∧ c.toNat ≤ 57 then c.toNat - 48 + 52
  else if c.toNat = 43 then 62
  else 63

/-- Models base64.StdEncoding.EncodeToString from encoding/base64 (an
external collaborator with a fixed contract, RFC 4648 with padding) on a
byte list: three bytes become four alphabet characters, a trailing byte or
byte pair is padded with equals signs. -/
def b64EncodeBytes : List Nat → List Char
  | [] => []
  | [a] => [b64Char (a / 4), b64Char (a % 4 * 16), '=', '=']
  | [a, b] => [b64Char (a / 4), b64Char (a % 4 * 16 + b / 16), b64Char (b % 16 * 4), '=']
  | a :: b :: c :: rest =>
      b64Char (a / 4) :: b64Char (a % 4 * 16 + b / 16) ::
      b64Char (b % 16 * 4 + c / 64) :: b64Char (c % 64) :: b64EncodeBytes rest

/-- The standard base64 decoder on a character list, used to state the
round-trip property of the photo flow body: four characters become three
bytes, with the two padded final forms handled first. -/
def b64DecodeChars : List Char → List Nat
  | c1 :: c2 :: c3 :: c4 :: rest =>
      if c3 = '=' then [b64Index c1 * 4 + b64Index c2 / 16]
      else if c4 = '=' then
        [b64Index c1 * 4 + b64Index c2 / 16, b64Index c2 % 16 * 16 + b64Index c3 / 4]
      else
        (b64Index c1 * 4 + b64Index c2 / 16) ::
        (b64Index c2 % 16 * 16 + b64Index c3 / 4) ::
        (b64Index c3 % 4 * 64 + b64Index c4) :: b64DecodeChars rest
  | _ => []

namespace MainGo

/-- Models clientError (src/main.go lines 115-122). -/
def clientError (status : Nat) : APIGatewayProxyResponse :=
  { StatusCode := status, Headers := stdHeaders, IsBase64Encoded := false,
    Body := statusText status }

/-- Models serverError (src/main.go lines 104-113); the err argument is only
logged, never placed in the response. This function is never called by any
other function in src/main.go. -/
def serverError (_err : String) : APIGatewayProxyResponse :=
  { StatusCode := 500, Headers := stdHeaders, IsBase64Encoded := false,
    Body := statusText 500 }

/-- Models clientSuccess (src/main.go lines 124-133). -/
def clientSuccess (biteArray : PlacesSearchResponse) : APIGatewayProxyResponse :=
  { StatusCode := 200, Headers := stdHeaders, IsBase64Encoded := false,
    Body := jsonMarshal biteArray }

/-- Models respondBiteArray (src/main.go lines 135-151): builds the search
criteria, issues the nearby search, and on error lets check log and falls
through with the zero-value response. -/
def respondBiteArray (u : Upstream) (lat long : Rat) (radius : Nat)
    (minPrice maxPrice : Int) : PlacesSearchResponse × UpstreamCall :=
  let r := searchCriteria lat long radius minPrice maxPrice
  match u.nearbySearch r with
  | .ok resp => (resp, .nearby r)
  | .error _ => (zeroPlacesSearchResponse, .nearby r)

/-- Models respondNextPage (src/main.go lines 153-164): the criteria carry
only the page token; on error check logs and the zero-value response falls
through. -/
def respondNextPage (u : Upstream) (pagetoken : String) : PlacesSearchResponse × UpstreamCall :=
  let r := { emptyNearbySearchRequest with PageToken := pagetoken }
  match u.nearbySearch r with
  | .ok resp => (resp, .nearby r)
  | .error _ => (zeroPlacesSearchResponse, .nearby r)

/-- Models respondPhoto (src/main.go lines 166-179): issues the photo fetch
with the fixed 6000 pixel caps and hands back the outcome; on error the
returned PlacePhotoResponse is the zero value whose Data stream is nil. -/
def respondPhoto (u : Upstream) (photoref : String) :
    Except String (List Nat) × UpstreamCall :=
  let r : PlacePhotoRequest :=
    { PhotoReference := photoref, MaxHeight := 6000, MaxWidth := 6000 }
  (u.placePhoto r, .photoFetch r)

/-- Models handleCreate (src/main.go lines 68-71). -/
def handleCreate (u : Upstream) (lat long : Rat) (radius : Nat)
    (minPrice maxPrice : Int) : APIGatewayProxyResponse × List UpstreamCall :=
  let pr := respondBiteArray u lat long radius minPrice maxPrice
  (clientSuccess pr.1, [pr.2])

/-- Models handleNext (src/main.go lines 73-83): no emptiness check on the
page token; the response record is built inline with the standard headers. -/
def handleNext (u : Upstream) (pagetoken : String) : APIGatewayProxyResponse × List UpstreamCall :=
  let pr := respondNextPage u pagetoken
  ({ StatusCode := 200, Headers := stdHeaders, IsBase64Encoded := false,
     Body := jsonMarshal pr.1 }, [pr.2])

/-- Models handlePhoto (src/main.go lines 85-102): for a non-empty reference
the fetched byte stream is read whole, base64 encoded and returned with the
IsBase64Encoded flag true; when the fetch failed the zero-value response has
a nil Data stream and reading it panics, so no response record is produced
(modelled by none). -/
def handlePhoto (u : Upstream) (photoref : String) :
    Option (APIGatewayProxyResponse × List UpstreamCall) :=
  if photoref.length > 0 then
    let pr := respondPhoto u photoref
    match pr.1 with
    | .ok data =>
        some ({ StatusCode := 200, Headers := stdHeaders, IsBase64Encoded := true,
                Body := String.mk (b64EncodeBytes data) }, [pr.2])
    | .error _ => none
  else some (clientError 400, [])

/-- Models handleRequest (src/main.go lines 52-66): the Unmarshal outcome is
the Option BiteBody argument, its error is discarded and the zero value is
used when it failed; then the verb is dispatched. -/
def handleRequest (u : Upstream) (unmarshalled : Option BiteBody) :
    Option (APIGatewayProxyResponse × List UpstreamCall) :=
  let parameters := unmarshalled.getD zeroBiteBody
  if parameters.Verb = "create" then
    some (handleCreate u parameters.Lat parameters.Long parameters.Radius
            parameters.MinPrice parameters.MaxPrice)
  else if parameters.Verb = "nextpage" then
    some (handleNext u parameters.PageToken)
  else if parameters.Verb = "photo" then
    handlePhoto u parameters.PhotoRef
  else
    some (clientError 400, [])

/-- Models router (src/main.go lines 42-50): POST dispatches to
handleRequest, every other method yields the 405 client error. -/
def router (u : Upstream) (httpMethod : String) (unmarshalled : Option BiteBody) :
    Option (APIGatewayProxyResponse × List UpstreamCall) :=
  if httpMethod = "POST" then handleRequest u unmarshalled
  else some (clientError 405, [])

end MainGo

namespace BiteApiGo

/-- Models clientError (src/biteApi.go lines 112-117): no headers are set. -/
def clientError (status : Nat) : APIGatewayProxyResponse :=
  { StatusCode := status, Headers := [], IsBase64Encoded := false,
    Body := statusText status }

/-- Models clientSuccess (src/biteApi.go lines 119-127): no headers are set. -/
def clientSuccess (biteArray : PlacesSearchResponse) : APIGatewayProxyResponse :=
  { StatusCode := 200, Headers := [], IsBase64Encoded := false,
    Body := jsonMarshal biteArray }

/-- Models respondNextPage (src/biteApi.go lines 147-159): in this variant
check calls log.Fatalf, so an upstream error terminates the process and no
response record is produced (modelled by none). -/
def respondNextPage (u : Upstream) (pagetoken : String) :
    Option (PlacesSearchResponse × UpstreamCall) :=
  let r := { emptyNearbySearchRequest with PageToken := pagetoken }
  match u.nearbySearch r with
  | .ok resp => some (resp, .nearby r)
  | .error _ => none

/-- Models handleNext (src/biteApi.go lines 78-85): an empty page token is
rejected with the 400 client error before any upstream call. -/
def handleNext (u : Upstream) (pagetoken : String) :
    Option (APIGatewayProxyResponse × List UpstreamCall) :=
  if pagetoken.length > 0 then
    (respondNextPage u pagetoken).map (fun pr => (clientSuccess pr.1, [pr.2]))
  else some (clientError 400, [])

end BiteApiGo

/-- An upstream oracle on which every provider call fails, as with a bad API
key or a network failure. -/
def failingUpstream : Upstream :=
  { nearbySearch := fun _ => .error "upstream failure",
    placePhoto := fun _ => .error "upstream failure" }

/-- An upstream oracle on which every provider call succeeds with fixed stub
data. -/
def okUpstream : Upstream :=
  { nearbySearch := fun _ => .ok { payload := "stub-results" },
    placePhoto := fun _ => .ok [5, 0, 255, 64] }

/-- On indices below 64, b64Index inverts b64Char. -/
theorem b64Index_b64Char : ∀ n, n < 64 → b64Index (b64Char n) = n := by decide

/-- No alphabet character is the padding character. -/
theorem b64Char_ne_pad : ∀ n, n < 64 → b64Char n ≠ '=' := by decide

/-- Decoding inverts encoding on every byte list: the round trip of the
standard base64 codec with padding. -/
theorem b64_roundtrip (bs : List Nat) (h : ∀ b ∈ bs, b < 256) :
    b64DecodeChars (b64EncodeBytes bs) = bs := by
  induction bs using b64EncodeBytes.induct with
  | case1 => rfl
  | case2 a =>
    have ha : a < 256 := h a (by simp)
    simp only [b64EncodeBytes, b64DecodeChars, if_true]
    rw [b64Index_b64Char _ (by omega), b64Index_b64Char _ (by omega)]
    simp only [List.cons.injEq, and_true]
    omega
  | case3 a b =>
    have ha : a < 256 := h a (by simp)
    have hb : b < 256 := h b (by simp)
    simp only [b64EncodeBytes, b64DecodeChars, if_true]
    rw [if_neg (b64Char_ne_pad _ (by omega))]
    rw [b64Index_b64Char _ (by omega), b64Index_b64Char _ (by omega),
        b64Index_b64Char _ (by omega)]
    simp only [List.cons.injEq, and_true]
    constructor
    · omega
    · omega
  | case4 a b c rest ih =>
    have ha : a < 256 := h a (by simp)
    have hb : b < 256 := h b (by simp)
    have hc : c < 256 := h c (by simp)
    have hrest : ∀ x ∈ rest, x < 256 := fun x hx => h x (by simp [hx])
    simp only [b64EncodeBytes, b64DecodeChars]
    rw [if_neg (b64Char_ne_pad _ (by omega)), if_neg (b64Char_ne_pad _ (by omega))]
    rw [b64Index_b64Char _ (by omega), b64Index_b64Char _ (by omega),
        b64Index_b64Char _ (by omega), b64Index_b64Char _ (by omega)]
    simp only [List.cons.injEq]
    refine ⟨by omega, by omega, by omega, ih hrest⟩

/-- The older variant satisfies the empty-page-token rule: handleNext in
src/biteApi.go rejects an empty token with the 400 client error and issues
no upstream call. -/
theorem biteApi_handleNext_empty_token (u : Upstream) :
    BiteApiGo.handleNext u "" = some (BiteApiGo.clientError 400, []) := rfl

/-- Claim C1: the claim says a failing upstream call yields a 500 response
with the generic status text and the process survives. Evaluating the newer
variant at inputs whose upstream calls fail shows the code does something
else: a failing nearby search is logged and the invocation answers 200 with
the serialized zero-value search response, and a failing photo fetch leaves
a nil data stream whose read panics, so no response record is produced at
all. No path of either variant produces a 500. -/
theorem c1_upstream_failure_returns_200_not_500 :
    (MainGo.router failingUpstream "POST"
        (some { zeroBiteBody with Verb := "create" })).map (fun p => p.1.StatusCode)
      = some 200
    ∧ MainGo.router failingUpstream "POST"
        (some { zeroBiteBody with Verb := "nextpage", PageToken := "tok" })
      = some ({ StatusCode := 200, Headers := stdHeaders, IsBase64Encoded := false,
                Body := jsonMarshal zeroPlacesSearchResponse },
              [UpstreamCall.nearby { emptyNearbySearchRequest with PageToken := "tok" }])
    ∧ MainGo.router failingUpstream "POST"
        (some { zeroBiteBody with Verb := "photo", PhotoRef := "ref1" }) = none := by
  refine ⟨rfl, rfl, rfl⟩

/-- Claim C2: the claim says a POST with verb nextpage and an empty page
token yields 400 without an upstream call. Evaluating the newer variant at
that input shows handleNext in src/main.go has no emptiness check: the empty
token is forwarded upstream in a nearby-search call and the invocation
answers 200 even though the upstream call fails. -/
theorem c2_empty_token_forwarded_upstream :
    MainGo.router failingUpstream "POST" (some { zeroBiteBody with Verb := "nextpage" })
      = some ({ StatusCode := 200, Headers := stdHeaders, IsBase64Encoded := false,
                Body := jsonMarshal zeroPlacesSearchResponse },
              [UpstreamCall.nearby { emptyNearbySearchRequest with PageToken := "" }]) := rfl

/-- Claim C5: the price-level mapping is total onto the five tiers, maps 0
to free, 1 to inexpensive, 2 to moderate, 3 to expensive, 4 to
very-expensive, and every integer outside 0..4 to the same tier as 0. -/
theorem c5_price_level_total_mapping :
    parsePriceLevel 0 = .free
    ∧ parsePriceLevel 1 = .inexpensive
    ∧ parsePriceLevel 2 = .moderate
    ∧ parsePriceLevel 3 = .expensive
    ∧ parsePriceLevel 4 = .veryExpensive
    ∧ (∀ p : Int, p < 0 ∨ 4 < p → parsePriceLevel p = parsePriceLevel 0)
    ∧ (∀ p : Int, parsePriceLevel p = .free ∨ parsePriceLevel p = .inexpensive
        ∨ parsePriceLevel p = .moderate ∨ parsePriceLevel p = .expensive
        ∨ parsePriceLevel p = .veryExpensive) := by
  refine ⟨rfl, rfl, rfl, rfl, rfl, ?_, ?_⟩
  · intro p hp
    unfold parsePriceLevel
    split_ifs with h0 h1 h2 h3 h4 <;> first | rfl | omega
  · intro p
    unfold parsePriceLevel
    split_ifs <;> simp

/-- Witness for claim C5 at the out-of-range inputs 9 and -3. -/
theorem c5_price_level_total_mapping_witness :
    parsePriceLevel 9 = parsePriceLevel 0 ∧ parsePriceLevel (-3) = parsePriceLevel 0 :=
  ⟨c5_price_level_total_mapping.2.2.2.2.2.1 9 (by decide),
   c5_price_level_total_mapping.2.2.2.2.2.1 (-3) (by decide)⟩

/-- Claim C7: any inbound request whose method is not POST yields exactly
the 405 response with the standard reason phrase, no matter what the body
holds, and no flow runs: no upstream call is issued. -/
theorem c7_non_post_method_405 (u : Upstream) (method : String) (b : Option BiteBody)
    (h : method ≠ "POST") :
    MainGo.router u method b
      = some ({ StatusCode := 405, Headers := stdHeaders, IsBase64Encoded := false,
                Body := "Method Not Allowed" }, []) := by
  simp [MainGo.router, if_neg h, MainGo.clientError, statusText]

/-- Witness for claim C7: a GET with a create body still yields the 405
record. -/
theorem c7_non_post_method_405_witness :
    MainGo.router okUpstream "GET" (some { zeroBiteBody with Verb := "create" })
      = some ({ StatusCode := 405, Headers := stdHeaders, IsBase64Encoded := false,
                Body := "Method Not Allowed" }, []) :=
  c7_non_post_method_405 okUpstream "GET" (some { zeroBiteBody with Verb := "create" })
    (by decide)

/-- Claim C8: a POST whose verb is missing or not one of create, nextpage,
photo yields the 400 response whose body is the standard reason phrase. -/
theorem c8_unrecognized_verb_400 (u : Upstream) (b : Option BiteBody)
    (h1 : (b.getD zeroBiteBody).Verb ≠ "create")
    (h2 : (b.getD zeroBiteBody).Verb ≠ "nextpage")
    (h3 : (b.getD zeroBiteBody).Verb ≠ "photo") :
    MainGo.router u "POST" b
      = some ({ StatusCode := 400, Headers := stdHeaders, IsBase64Encoded := false,
                Body := "Bad Request" }, []) := by
  simp [MainGo.router, MainGo.handleRequest, if_neg h1, if_neg h2, if_neg h3,
    MainGo.clientError, statusText]

/-- Witness for claim C8 at an unrecognized verb. -/
theorem c8_unrecognized_verb_400_witness :
    MainGo.router okUpstream "POST" (some { zeroBiteBody with Verb := "frobnicate" })
      = some ({ StatusCode := 400, Headers := stdHeaders, IsBase64Encoded := false,
                Body := "Bad Request" }, []) :=
  c8_unrecognized_verb_400 okUpstream (some { zeroBiteBody with Verb := "frobnicate" })
    (by decide) (by decide) (by decide)

/-- Claim C9: a POST whose body is not valid JSON does not fail the
invocation: the Unmarshal error is discarded, the envelope keeps its zero
values, and the result is the very same 400 record as for a missing verb,
with no upstream call. -/
theorem c9_invalid_json_zero_envelope (u : Upstream) :
    MainGo.router u "POST" none
      = some ({ StatusCode := 400, Headers := stdHeaders, IsBase64Encoded := false,
                Body := "Bad Request" }, [])
    ∧ MainGo.router u "POST" none = MainGo.router u "POST" (some zeroBiteBody) :=
  ⟨rfl, rfl⟩

/-- Claim C3: in the Create flow the minimum price bound of the search
criteria is set, and set to the mapped tier of minPrice, exactly when
minPrice is greater than 0; and the maximum price bound is set, and set to
the mapped tier of minPrice rather than maxPrice, exactly when maxPrice is
less than 5. -/
theorem c3_price_bounds_from_min_price (lat long : Rat) (radius : Nat)
    (minPrice maxPrice : Int) :
    ((searchCriteria lat long radius minPrice maxPrice).MinPrice ≠ none ↔ minPrice > 0)
    ∧ (minPrice > 0 →
        (searchCriteria lat long radius minPrice maxPrice).MinPrice
          = some (parsePriceLevel minPrice))
    ∧ ((searchCriteria lat long radius minPrice maxPrice).MaxPrice ≠ none ↔ maxPrice < 5)
    ∧ (maxPrice < 5 →
        (searchCriteria lat long radius minPrice maxPrice).MaxPrice
          = some (parsePriceLevel minPrice)) := by
  unfold searchCriteria parsePriceLevels parseLocation
  split_ifs with h1 h2 h3 <;> simp_all

/-- Witness for claim C3 at minPrice 2 and maxPrice 3: both bounds come out
as the moderate tier mapped from minPrice. -/
theorem c3_price_bounds_from_min_price_witness :
    (searchCriteria 1 2 50 2 3).MinPrice = some (parsePriceLevel 2)
    ∧ (searchCriteria 1 2 50 2 3).MaxPrice = some (parsePriceLevel 2) :=
  ⟨(c3_price_bounds_from_min_price 1 2 50 2 3).2.1 (by decide),
   (c3_price_bounds_from_min_price 1 2 50 2 3).2.2.2 (by decide)⟩

/-- Claim C4 counterexample: the claim says a POST create whose body omits
long yields 400 with body Bad Request and no upstream call. Evaluating the
newer variant at the envelope such a body unmarshals to (every field zero
except the verb) shows the invocation answers 200 and issues exactly one
upstream nearby-search call. -/
theorem c4_missing_long_counterexample :
    (MainGo.router okUpstream "POST" (some { zeroBiteBody with Verb := "create" })).map
        (fun p => (p.1.StatusCode, p.1.Body, p.2.length))
      = some (200, "stub-results", 1) := rfl

/-- Claim C4 as amended: a POST create whose body omits long is not
rejected; json.Unmarshal leaves the longitude at its zero value 0.0, the
Create flow proceeds, issues the nearby-search call with that zero
longitude, and the invocation answers 200 whether the upstream call
succeeds or fails. -/
theorem c4_missing_long_defaults_to_zero (u : Upstream) (b : BiteBody)
    (hv : b.Verb = "create") (hl : b.Long = 0) :
    (MainGo.router u "POST" (some b)).map (fun p => p.1.StatusCode) = some 200
    ∧ (MainGo.router u "POST" (some b)).map (fun p => p.2)
      = some [UpstreamCall.nearby (searchCriteria b.Lat 0 b.Radius b.MinPrice b.MaxPrice)] := by
  have hr : MainGo.router u "POST" (some b)
      = some (MainGo.handleCreate u b.Lat b.Long b.Radius b.MinPrice b.MaxPrice) := by
    simp [MainGo.router, MainGo.handleRequest, hv]
  rw [hr, hl]
  unfold MainGo.handleCreate MainGo.respondBiteArray
  cases hns : u.nearbySearch (searchCriteria b.Lat 0 b.Radius b.MinPrice b.MaxPrice) <;>
    simp [MainGo.clientSuccess, hns]

/-- Witness for the amended claim C4 at the concrete envelope of a body
that omits long. -/
theorem c4_missing_long_defaults_to_zero_witness :
    (MainGo.router okUpstream "POST" (some { zeroBiteBody with Verb := "create" })).map
        (fun p => p.1.StatusCode) = some 200
    ∧ (MainGo.router okUpstream "POST" (some { zeroBiteBody with Verb := "create" })).map
        (fun p => p.2)
      = some [UpstreamCall.nearby (searchCriteria 0 0 0 0 0)] :=
  c4_missing_long_defaults_to_zero okUpstream { zeroBiteBody with Verb := "create" } rfl rfl

/-- Claim C6: for every non-empty photo reference and every byte stream the
upstream photo fetch returns, the photo flow of the newer variant answers
200 with the binary-encoding flag true and a body that base64-decodes back
to exactly the fetched bytes. -/
theorem c6_photo_roundtrip (u : Upstream) (photoref : String) (data : List Nat)
    (href : photoref.length > 0)
    (hdata : ∀ b ∈ data, b < 256)
    (hfetch : u.placePhoto
        { PhotoReference := photoref, MaxHeight := 6000, MaxWidth := 6000 } = .ok data) :
    MainGo.router u "POST" (some { zeroBiteBody with Verb := "photo", PhotoRef := photoref })
      = some ({ StatusCode := 200, Headers := stdHeaders, IsBase64Encoded := true,
                Body := String.mk (b64EncodeBytes data) },
              [UpstreamCall.photoFetch
                { PhotoReference := photoref, MaxHeight := 6000, MaxWidth := 6000 }])
    ∧ b64DecodeChars (String.mk (b64EncodeBytes data)).toList = data := by
  constructor
  · have hne : MainGo.router u "POST"
        (some { zeroBiteBody with Verb := "photo", PhotoRef := photoref })
        = MainGo.handlePhoto u photoref := rfl
    rw [hne]
    unfold MainGo.handlePhoto MainGo.respondPhoto
    rw [if_pos href]
    simp only [hfetch]
  · show b64DecodeChars (b64EncodeBytes data) = data
    exact b64_roundtrip data hdata

/-- Witness for claim C6 at the reference ref1 and the stub byte stream of
the succeeding oracle. -/
theorem c6_photo_roundtrip_witness :
    MainGo.router okUpstream "POST" (some { zeroBiteBody with Verb := "photo", PhotoRef := "ref1" })
      = some ({ StatusCode := 200, Headers := stdHeaders, IsBase64Encoded := true,
                Body := String.mk (b64EncodeBytes [5, 0, 255, 64]) },
              [UpstreamCall.photoFetch
                { PhotoReference := "ref1", MaxHeight := 6000, MaxWidth := 6000 }])
    ∧ b64DecodeChars (String.mk (b64EncodeBytes [5, 0, 255, 64])).toList = [5, 0, 255, 64] :=
  c6_photo_roundtrip okUpstream "ref1" [5, 0, 255, 64] (by decide) (by decide) rfl

/-- Claim C10: every response record the newer variant produces carries the
two standard headers, the binary-encoding flag is true exactly on the
successful photo path (POST, verb photo, non-empty reference, and a
response record was produced at all), and the server-error constructor also
carries the standard headers with the flag false. -/
theorem c10_headers_and_binary_flag (u : Upstream) (method : String) (b : Option BiteBody)
    (err : String) (resp : APIGatewayProxyResponse) (calls : List UpstreamCall)
    (h : MainGo.router u method b = some (resp, calls)) :
    resp.Headers = stdHeaders
    ∧ (resp.IsBase64Encoded = true ↔
        (method = "POST" ∧ (b.getD zeroBiteBody).Verb = "photo"
          ∧ (b.getD zeroBiteBody).PhotoRef.length > 0))
    ∧ (MainGo.serverError err).Headers = stdHeaders
    ∧ (MainGo.serverError err).IsBase64Encoded = false := by
  by_cases hm : method = "POST"
  case neg =>
    have hval : MainGo.router u method b = some (MainGo.clientError 405, []) := by
      simp [MainGo.router, hm]
    rw [hval] at h
    simp only [Option.some.injEq, Prod.mk.injEq] at h
    obtain ⟨h1, h2⟩ := h
    subst h1
    simp [MainGo.clientError, MainGo.serverError, hm]
  case pos =>
    subst hm
    by_cases hv1 : (b.getD zeroBiteBody).Verb = "create"
    · have hval : MainGo.router u "POST" b
          = some (MainGo.clientSuccess (MainGo.respondBiteArray u (b.getD zeroBiteBody).Lat
              (b.getD zeroBiteBody).Long (b.getD zeroBiteBody).Radius
              (b.getD zeroBiteBody).MinPrice (b.getD zeroBiteBody).MaxPrice).1,
            [(MainGo.respondBiteArray u (b.getD zeroBiteBody).Lat
              (b.getD zeroBiteBody).Long (b.getD zeroBiteBody).Radius
              (b.getD zeroBiteBody).MinPrice (b.getD zeroBiteBody).MaxPrice).2]) := by
        simp [MainGo.router, MainGo.handleRequest, MainGo.handleCreate, hv1]
      rw [hval] at h
      simp only [Option.some.injEq, Prod.mk.injEq] at h
      obtain ⟨h1, h2⟩ := h
      subst h1
      simp [MainGo.clientSuccess, MainGo.serverError, hv1]
    · by_cases hv2 : (b.getD zeroBiteBody).Verb = "nextpage"
      · have hval : MainGo.router u "POST" b
            = some (({ StatusCode := 200, Headers := stdHeaders, IsBase64Encoded := false,
                       Body := jsonMarshal (MainGo.respondNextPage u
                         (b.getD zeroBiteBody).PageToken).1 } : APIGatewayProxyResponse),
              [(MainGo.respondNextPage u (b.getD zeroBiteBody).PageToken).2]) := by
          simp [MainGo.router, MainGo.handleRequest, MainGo.handleNext, hv1, hv2]
        rw [hval] at h
        simp only [Option.some.injEq, Prod.mk.injEq] at h
        obtain ⟨h1, h2⟩ := h
        subst h1
        simp [MainGo.serverError, hv2]
      · by_cases hv3 : (b.getD zeroBiteBody).Verb = "photo"
        · by_cases hlen : (b.getD zeroBiteBody).PhotoRef.length > 0
          · cases hfetch : u.placePhoto
                ({ PhotoReference := (b.getD zeroBiteBody).PhotoRef,
                   MaxHeight := 6000, MaxWidth := 6000 } : PlacePhotoRequest) with
            | ok data =>
              have hval : MainGo.router u "POST" b
                  = some (({ StatusCode := 200, Headers := stdHeaders,
                             IsBase64Encoded := true,
                             Body := String.mk (b64EncodeBytes data) } :
                               APIGatewayProxyResponse),
                    [UpstreamCall.photoFetch
                      { PhotoReference := (b.getD zeroBiteBody).PhotoRef,
                        MaxHeight := 6000, MaxWidth := 6000 }]) := by
                simp [MainGo.router, MainGo.handleRequest, MainGo.handlePhoto,
                  MainGo.respondPhoto, hv1, hv2, hv3, hlen, hfetch]
              rw [hval] at h
              simp only [Option.some.injEq, Prod.mk.injEq] at h
              obtain ⟨h1, h2⟩ := h
              subst h1
              simp [MainGo.serverError, hv3, hlen]
            | error e =>
              have hval : MainGo.router u "POST" b = none := by
                simp [MainGo.router, MainGo.handleRequest, MainGo.handlePhoto,
                  MainGo.respondPhoto, hv1, hv2, hv3, hlen, hfetch]
              rw [hval] at h
              exact absurd h (by simp)
          · have hval : MainGo.router u "POST" b = some (MainGo.clientError 400, []) := by
              simp [MainGo.router, MainGo.handleRequest, MainGo.handlePhoto,
                hv1, hv2, hv3, hlen]
            rw [hval] at h
            simp only [Option.some.injEq, Prod.mk.injEq] at h
            obtain ⟨h1, h2⟩ := h
            subst h1
            simp [MainGo.clientError, MainGo.serverError, hlen]
        · have hval : MainGo.router u "POST" b = some (MainGo.clientError 400, []) := by
            simp [MainGo.router, MainGo.handleRequest, hv1, hv2, hv3]
          rw [hval] at h
          simp only [Option.some.injEq, Prod.mk.injEq] at h
          obtain ⟨h1, h2⟩ := h
          subst h1
          simp [MainGo.clientError, MainGo.serverError, hv3]

/-- Witness for claim C10 at a concrete successful photo invocation. -/
theorem c10_headers_and_binary_flag_witness :
    ({ StatusCode := 200, Headers := stdHeaders, IsBase64Encoded := true,
       Body := String.mk (b64EncodeBytes [5, 0, 255, 64]) } :
        APIGatewayProxyResponse).Headers = stdHeaders
    ∧ (({ StatusCode := 200, Headers := stdHeaders, IsBase64Encoded := true,
          Body := String.mk (b64EncodeBytes [5, 0, 255, 64]) } :
            APIGatewayProxyResponse).IsBase64Encoded = true ↔
        ("POST" = "POST"
          ∧ ((some { zeroBiteBody with Verb := "photo", PhotoRef := "ref1" }).getD
              zeroBiteBody).Verb = "photo"
          ∧ ((some { zeroBiteBody with Verb := "photo", PhotoRef := "ref1" }).getD
              zeroBiteBody).PhotoRef.length > 0))
    ∧ (MainGo.serverError "boom").Headers = stdHeaders
    ∧ (MainGo.serverError "boom").IsBase64Encoded = false :=
  c10_headers_and_binary_flag okUpstream "POST"
    (some { zeroBiteBody with Verb := "photo", PhotoRef := "ref1" }) "boom"
    { StatusCode := 200, Headers := stdHeaders, IsBase64Encoded := true,
      Body := String.mk (b64EncodeBytes [5, 0, 255, 64]) }
    [UpstreamCall.photoFetch { PhotoReference := "ref1", MaxHeight := 6000, MaxWidth := 6000 }]
    rfl
